import Mathlib

/-!
Verification of the SARIF-report pipeline in `sarif_to_pdf.py`.

The Python program is shallowly embedded: parsed JSON documents (what
`json.load` returns) are modelled by the inductive type `PyVal`; a Python
expression that can raise an uncaught exception (`AttributeError`,
`TypeError`, `IndexError`) is modelled as an `Except String` computation,
with `Except.error` standing for the raised exception.  Pure helper
operations (`_get`, truthiness, `str()` coercion, `str.strip`,
`str.replace`, slicing) are translated function by function.
-/

set_option maxRecDepth 10000

/-- A Python value as produced by `json.load`: `None`, booleans, numbers
(the documents of interest carry integers), strings, lists and
string-keyed dicts.  Dicts are association lists; documents produced by
`json.load` have no duplicate keys. -/
inductive PyVal where
  | none : PyVal
  | bool : Bool → PyVal
  | int : Int → PyVal
  | str : String → PyVal
  | list : List PyVal → PyVal
  | dict : List (String × PyVal) → PyVal

/-- Python truthiness: `None`, `False`, `0`, `""`, `[]` and the empty dict
are falsy, everything else is truthy. -/
def truthy : PyVal → Bool
  | .none => false
  | .bool b => b
  | .int n => n != 0
  | .str s => !s.isEmpty
  | .list xs => !xs.isEmpty
  | .dict kvs => !kvs.isEmpty

/-- Python `a or b` on values: `a` if truthy, else `b`. -/
def pyOrV (a b : PyVal) : PyVal := if truthy a then a else b

mutual
/-- The `repr` of a Python value, used by `str()` on non-string values.
String elements inside containers are shown between single quotes;
escape sequences inside such elements are not modelled (the documents of
interest never reach that corner). -/
def pyRepr : PyVal → String
  | .none => "None"
  | .bool true => "True"
  | .bool false => "False"
  | .int n => toString n
  | .str s => "'" ++ s ++ "'"
  | .list xs => "[" ++ pyReprList xs ++ "]"
  | .dict kvs => "\x7b" ++ pyReprDict kvs ++ "\x7d"

/-- Comma-separated `repr` of list elements. -/
def pyReprList : List PyVal → String
  | [] => ""
  | [x] => pyRepr x
  | x :: xs => pyRepr x ++ ", " ++ pyReprList xs

/-- Comma-separated `repr` of dict entries. -/
def pyReprDict : List (String × PyVal) → String
  | [] => ""
  | [(k, v)] => "'" ++ k ++ "': " ++ pyRepr v
  | (k, v) :: kvs => "'" ++ k ++ "': " ++ pyRepr v ++ ", " ++ pyReprDict kvs
end

/-- Python `str()`: a string is returned as itself, any other value via its
`repr` (for the values of interest: `str(None) = "None"`, `str(5) = "5"`). -/
def pyStr : PyVal → String
  | .str s => s
  | v => pyRepr v

/-- Python `d.get(k)` on a dict body: the stored value, or Python `None` when the
key is absent (models `dict.get` with its default `None`). -/
def dGet (kvs : List (String × PyVal)) (k : String) : PyVal :=
  (List.lookup k kvs).getD .none

/-- Python `d.get(k, default)` on a dict body. -/
def dGetD (kvs : List (String × PyVal)) (k : String) (default : PyVal) : PyVal :=
  (List.lookup k kvs).getD default

/-- The `_get` helper of `sarif_to_pdf.py` (lines 15-22): walk `path` key
by key, returning `default` the moment the current value is not a dict or
the key is absent. -/
def _get (obj : PyVal) (path : List String) (default : PyVal) : PyVal :=
  match path with
  | [] => obj
  | k :: ks =>
    match obj with
    | .dict kvs =>
      match List.lookup k kvs with
      | some v => _get v ks default
      | Option.none => default
    | _ => default

/-- Spec-side description of the safe path lookup: descend key by key,
`none` the moment any step is not a map or the key is absent, otherwise
the value at the end of the path. -/
def lookupPath (obj : PyVal) (path : List String) : Option PyVal :=
  match path with
  | [] => some obj
  | k :: ks =>
    match obj with
    | .dict kvs => (List.lookup k kvs).bind (fun v => lookupPath v ks)
    | _ => Option.none

/-- The whitespace characters stripped by Python `str.strip()` (ASCII
range: space, tab, newline, carriage return, vertical tab, form feed). -/
def isPySpace (c : Char) : Bool :=
  c = ' ' || c = '\t' || c = '\n' || c = '\r' || c = '\x0b' || c = '\x0c'

/-- The character map underlying `s.replace("\n", " ")`. -/
def nlToSpace (c : Char) : Char := if c = '\n' then ' ' else c

/-- Python `s.replace("\n", " ")`: every newline becomes a single space. -/
def replaceNL (s : String) : String := ⟨s.data.map nlToSpace⟩

/-- Python `str.strip()` on a character list: drop whitespace from both ends. -/
def pyStripData (l : List Char) : List Char :=
  ((l.dropWhile isPySpace).reverse.dropWhile isPySpace).reverse

/-- Python `s.strip()`. -/
def pyStrip (s : String) : String := ⟨pyStripData s.data⟩

/-- Line 54 of `sarif_to_pdf.py`: `msg.replace("\n", " ").strip()`. -/
def normalizeMsg (s : String) : String := pyStrip (replaceNL s)

/-- Spec-side message normalization, following the spec's words: the
source message trimmed of leading/trailing whitespace, with its (now
internal) newlines replaced by spaces. -/
def specNormalize (s : String) : String := replaceNL (pyStrip s)

/-- Python slice `s[:n]`. -/
def strTake (s : String) (n : Nat) : String := ⟨s.data.take n⟩

/-- Python slice `s[-n:]` (for `0 < n`): the final `n` characters, or the
whole string when it is shorter than `n`. -/
def strTakeRight (s : String) (n : Nat) : String := ⟨s.data.drop (s.data.length - n)⟩

/-- One normalized finding row, as built by lines 48-59 of
`sarif_to_pdf.py`.  Fields that the Python code stores without coercion
keep their dynamic (`PyVal`) type; `severity` and `message` are always
strings (`str(sev)` and `msg.replace(...).strip()`). -/
structure Finding where
  source_sarif : String
  tool : PyVal
  ruleId : PyVal
  level : PyVal
  severity : String
  message : String
  file : PyVal
  line : PyVal
  col : PyVal
  endLine : PyVal

/-- All ten fields of a finding, coerced to strings with `str()` for the
dynamically typed ones — a decidable projection used to state concrete
evaluations. -/
def Finding.flat (f : Finding) : List String :=
  [f.source_sarif, pyStr f.tool, pyStr f.ruleId, pyStr f.level, f.severity,
   f.message, pyStr f.file, pyStr f.line, pyStr f.col, pyStr f.endLine]

/-- Python `x[0]`: first element of a list (IndexError when empty), first
character of a string, TypeError on anything else (an integer key into a
string-keyed dict raises KeyError; grouped here as an error as well). -/
def pyIndex0 : PyVal → Except String PyVal
  | .list (x :: _) => .ok x
  | .list [] => .error "IndexError: list index out of range"
  | .str s =>
    match s.data with
    | c :: _ => .ok (.str c.toString)
    | [] => .error "IndexError: string index out of range"
  | _ => .error "TypeError: object is not subscriptable"

/-- Python iteration `for x in v`: lists yield their elements, strings
their characters, dicts their keys; other values raise TypeError. -/
def pyToList : PyVal → Except String (List PyVal)
  | .list xs => .ok xs
  | .str s => .ok (s.data.map (fun c => .str c.toString))
  | .dict kvs => .ok (kvs.map (fun kv => .str kv.1))
  | _ => .error "TypeError: object is not iterable"

/-- Line 47 of `sarif_to_pdf.py`:
`props.get("severity") or props.get("security-severity") or props.get("cvss") or ""`. -/
def extractSev (props : List (String × PyVal)) : PyVal :=
  pyOrV (pyOrV (pyOrV (dGet props "severity") (dGet props "security-severity"))
    (dGet props "cvss")) (.str "")

/-- The helper `exceptMapM f l` runs `f` over `l` left to right, collecting results
and propagating the first error — the shape of the Python `for` loops
that append one row per entry, where an uncaught exception aborts. -/
def exceptMapM (f : α → Except String β) : List α → Except String (List β)
  | [] => .ok []
  | a :: as =>
    match f a with
    | .error e => .error e
    | .ok b =>
      match exceptMapM f as with
      | .error e => .error e
      | .ok bs => .ok (b :: bs)

/-- Lines 34-59 of `sarif_to_pdf.py`: extraction of one result entry `r`
of a run with tool name `tool`, from the document named `src`
(`os.path.basename(path)`).  `Except.error` models an uncaught Python
exception (`r.get`/`loc0.get`/`ploc.get`/`region.get`/`props.get` on a
non-dict, `msg.replace` on a non-string, a bad `locations[0]`). -/
def parseResult (src : String) (tool : PyVal) (r : PyVal) : Except String Finding :=
  match r with
  | .dict rd =>
    let ruleId := dGetD rd "ruleId" (.str "")
    let level := dGetD rd "level" (.str "")
    let msgV := _get (.dict rd) ["message", "text"] (.str "")
    let locs := pyOrV (dGet rd "locations") (.list [.dict []])
    match pyIndex0 locs with
    | .error e => .error e
    | .ok loc0 =>
      match loc0 with
      | .dict l0d =>
        let ploc := pyOrV (dGet l0d "physicalLocation") (.dict [])
        let uri := _get ploc ["artifactLocation", "uri"] (.str "")
        match ploc with
        | .dict plocD =>
          let region := pyOrV (dGet plocD "region") (.dict [])
          match region with
          | .dict regD =>
            let line := dGetD regD "startLine" (.str "")
            let col := dGetD regD "startColumn" (.str "")
            let endLine := dGetD regD "endLine" (.str "")
            let props := pyOrV (dGet rd "properties") (.dict [])
            match props with
            | .dict propsD =>
              let sev := extractSev propsD
              match msgV with
              | .str m =>
                .ok { source_sarif := src, tool := tool, ruleId := ruleId,
                      level := level, severity := pyStr sev,
                      message := normalizeMsg m, file := uri, line := line,
                      col := col, endLine := endLine }
              | _ => .error "AttributeError: object has no attribute replace"
            | _ => .error "AttributeError: object has no attribute get"
          | _ => .error "AttributeError: object has no attribute get"
        | _ => .error "AttributeError: object has no attribute get"
      | _ => .error "AttributeError: object has no attribute get"
  | _ => .error "AttributeError: object has no attribute get"

/-- Lines 30-33 of `sarif_to_pdf.py`: one run — resolve the tool name via
`_get(run, ["tool", "driver", "name"], basename)` and extract every entry
of `run.get("results") or []`. -/
def parseRun (src : String) (run : PyVal) : Except String (List Finding) :=
  let tool := _get run ["tool", "driver", "name"] (.str src)
  match run with
  | .dict rund =>
    let results := pyOrV (dGet rund "results") (.list [])
    match pyToList results with
    | .error e => .error e
    | .ok rs => exceptMapM (parseResult src tool) rs
  | _ => .error "AttributeError: object has no attribute get"

/-- Lines 24-61 of `sarif_to_pdf.py` after `json.load`: the Record
Extractor over the parsed document `data`, with `src` the document's base
name.  The surrounding file read is the caller's concern (section 4.1 of
the spec); `Except.error` models an uncaught exception escaping
`parse_sarif`. -/
def parse_sarif (data : PyVal) (src : String) : Except String (List Finding) :=
  match data with
  | .dict dd =>
    let runsV := pyOrV (dGet dd "runs") (.list [])
    match pyToList runsV with
    | .error e => .error e
    | .ok runs =>
      match exceptMapM (parseRun src) runs with
      | .error e => .error e
      | .ok rss => .ok rss.flatten
  | _ => .error "AttributeError: object has no attribute get"

/-- True on a dict value. -/
def isDict : PyVal → Bool
  | .dict _ => true
  | _ => false

/-- True on a string value. -/
def isStr : PyVal → Bool
  | .str _ => true
  | _ => false

/-- Well-typedness of one result entry: the entry is a map, its
`message.text` (after defaulting) is a string, its `locations` (when
truthy) is a list headed by a map whose `physicalLocation` and `region`
values (after the `or`-defaults) are maps, and its `properties` value
(after the `or`-default) is a map.  These are exactly the dynamic types
lines 34-59 of `sarif_to_pdf.py` require of *present* fields; absent
fields are always fine. -/
def resultOk (r : PyVal) : Bool :=
  match r with
  | .dict rd =>
    isStr (_get (.dict rd) ["message", "text"] (.str "")) &&
    (match pyOrV (dGet rd "locations") (.list [.dict []]) with
     | .list (.dict l0d :: _) =>
       (match pyOrV (dGet l0d "physicalLocation") (.dict []) with
        | .dict plocD => isDict (pyOrV (dGet plocD "region") (.dict []))
        | _ => false)
     | _ => false) &&
    isDict (pyOrV (dGet rd "properties") (.dict []))
  | _ => false

/-- Well-typedness of one run: a map whose `results` (when truthy) is a
list of well-typed result entries. -/
def runOk (run : PyVal) : Bool :=
  match run with
  | .dict rund =>
    (match pyOrV (dGet rund "results") (.list []) with
     | .list rs => rs.all resultOk
     | _ => false)
  | _ => false

/-- Well-typedness of a parsed document: a map whose `runs` (when truthy)
is a list of well-typed runs. -/
def docOk (data : PyVal) : Bool :=
  match data with
  | .dict dd =>
    (match pyOrV (dGet dd "runs") (.list []) with
     | .list rs => rs.all runOk
     | _ => false)
  | _ => false

/-- Lines 69-79 of `sarif_to_pdf.py`: the severity bucket of a data-frame
row, from its (always string) `severity` cell and its dynamically typed
`level` cell.  `(row["level"] or "").lower()` raises on a truthy
non-string level, hence the `Except`. -/
def bucket (severity : String) (level : PyVal) : Except String String :=
  if severity ≠ "" ∧ severity ≠ "None" then .ok severity
  else
    match pyOrV level (.str "") with
    | .str s =>
      let lv := s.toLower
      .ok (if lv = "error" then "HIGH"
        else if lv = "warning" then "MEDIUM"
        else if lv = "note" then "LOW"
        else "UNKNOWN")
    | _ => .error "AttributeError: object has no attribute lower"

/-- Spec-side classifier, following the claim's words: if the raw
severity is present (non-empty) and not the literal string `"None"`,
return it verbatim; else map the raw level case-insensitively with
`error`→HIGH, `warning`→MEDIUM, `note`→LOW; else UNKNOWN. -/
def specBucket (sev lv : String) : String :=
  if sev ≠ "" ∧ sev ≠ "None" then sev
  else if lv.toLower = "error" then "HIGH"
  else if lv.toLower = "warning" then "MEDIUM"
  else if lv.toLower = "note" then "LOW"
  else "UNKNOWN"

/-- The fixed column selection of `df_to_table_data` (line 113). -/
def tableCols : List String := ["tool", "ruleId", "level", "severity", "file", "line", "message"]

/-- One data-frame cell as `df_to_table_data` reads it: `str(row[c])`,
with a column missing from the input filled with the empty string
(lines 115-117: `if c not in df.columns: df[c] = ""`). -/
def cellStr (row : List (String × PyVal)) (c : String) : String :=
  pyStr ((List.lookup c row).getD (.str ""))

/-- Lines 122-124: a message longer than 120 characters is cut to its
first 117 characters plus `"..."`. -/
def truncMsg (m : String) : String :=
  if 120 < m.length then strTake m 117 ++ "..." else m

/-- Lines 125-127: a file path longer than 45 characters is reduced to
`"..."` plus its final 42 characters. -/
def truncFile (f : String) : String :=
  if 45 < f.length then "..." ++ strTakeRight f 42 else f

/-- Lines 128-136: the seven cells appended for one data-frame row, in
the order `tool, ruleId, level, severity, file, line, message`. -/
def mkTableRow (row : List (String × PyVal)) : List String :=
  [cellStr row "tool", cellStr row "ruleId", cellStr row "level",
   cellStr row "severity", truncFile (cellStr row "file"),
   cellStr row "line", truncMsg (cellStr row "message")]

/-- Lines 112-137 of `sarif_to_pdf.py`: the Table Formatter — header row
followed by the first `maxRows` input rows, truncated per cell.  A
data-frame row is modelled as its cells keyed by column name. -/
def df_to_table_data (rows : List (List (String × PyVal))) (maxRows : Nat) : List (List String) :=
  tableCols :: (rows.take maxRows).map mkTableRow

/-- A finding as a data-frame row: the ten columns produced by
`parse_sarif` (lines 48-59), keyed by column name. -/
def Finding.toRow (f : Finding) : List (String × PyVal) :=
  [("source_sarif", .str f.source_sarif), ("tool", f.tool), ("ruleId", f.ruleId),
   ("level", f.level), ("severity", .str f.severity), ("message", .str f.message),
   ("file", f.file), ("line", f.line), ("col", f.col), ("endLine", f.endLine)]

/-- Lines 63-110 of `sarif_to_pdf.py`: the Chart Renderer.  The returned
value is the list of image paths appended to `charts`; plotting itself is
a side effect on those files and is not part of the returned data.  An
empty data frame returns the empty list before anything is plotted;
otherwise `df2.apply(bucket, axis=1)` (line 82) classifies every row and
an exception escaping `bucket` aborts. -/
def make_charts (df : List Finding) (outDir : String) : Except String (List String) :=
  if df.isEmpty then .ok []
  else
    match exceptMapM (fun f => bucket f.severity f.level) df with
    | .error e => .error e
    | .ok _ => .ok [outDir ++ "/severity_distribution.png", outDir ++ "/top_rules.png"]

/-- A reportlab flowable as appended to `story` in `build_pdf`
(lines 139-185); visual styling (colors, widths) is layout only and not
modelled beyond the style name and dimensions. -/
inductive Flowable where
  | para (text style : String)
  | spacer (w h : Nat)
  | image (path : String) (w h : Nat)
  | table (data : List (List String))
  | pageBreak
deriving Repr, DecidableEq

/-- True exactly on the one Italic-styled paragraph kind `build_pdf`
emits: the per-section truncation note (line 182). -/
def isItalicPara : Flowable → Bool
  | .para _ st => st == "Italic"
  | _ => false

/-- Insert a string into an ascending list (code-point order, as Python
compares strings). -/
def insortStr (k : String) : List String → List String
  | [] => [k]
  | x :: xs => if k ≤ x then k :: x :: xs else x :: insortStr k xs

/-- Sort strings ascending by insertion. -/
def sortStrs (l : List String) : List String := l.foldr insortStr []

/-- The group keys of `df_all.groupby("source_sarif")` (line 166): the
distinct source-document names in ascending order (pandas sorts group
keys). -/
def sourceKeys (df : List Finding) : List String :=
  sortStrs ((df.map (fun f => f.source_sarif)).eraseDups)

/-- Lines 166-183 of `sarif_to_pdf.py`: the flowables of one per-document
section — heading with name and count, spacer, the formatted table capped
at 60 rows, spacer, the truncation note (appended unconditionally), page
break. -/
def sectionFlow (df : List Finding) (k : String) : List Flowable :=
  let g := df.filter (fun f => f.source_sarif == k)
  [.para ("Findings from: <b>" ++ k ++ "</b> (count: " ++ toString g.length ++ ")") "Heading2",
   .spacer 1 6,
   .table (df_to_table_data (g.map Finding.toRow) 60),
   .spacer 1 12,
   .para "Note: table is truncated to the first 60 rows for readability." "Italic",
   .pageBreak]

/-- Lines 139-185 of `sarif_to_pdf.py`: the Report Builder's story.
`existsF` stands for `os.path.exists` on the chart paths; `now` for
`datetime.utcnow().isoformat()`. -/
def build_pdf (dfAll : List Finding) (existsF : String → Bool) (charts : List String)
    (now : String) : List Flowable :=
  let base := [Flowable.para "Security Findings Report" "Title", Flowable.spacer 1 8,
               Flowable.para ("Generated: " ++ now ++ "Z") "Normal", Flowable.spacer 1 12]
  if dfAll.isEmpty then
    base ++ [Flowable.para "No findings found in provided SARIF files." "Normal"]
  else
    base ++ [Flowable.para ("Total findings: <b>" ++ toString dfAll.length ++ "</b>") "Normal",
             Flowable.spacer 1 10]
      ++ (charts.filter existsF).flatMap (fun ch => [Flowable.image ch 520 280, Flowable.spacer 1 10])
      ++ [Flowable.pageBreak]
      ++ (sourceKeys dfAll).flatMap (sectionFlow dfAll)

/-- One iteration of the per-document loop of `main` (lines 196-202):
a successful non-empty parse appends its data frame to `dfs`; a caught
exception appends one `[WARN]` line instead. -/
def mainStep (acc : List (List Finding) × List String)
    (p : String × Except String (List Finding)) : List (List Finding) × List String :=
  match p.2 with
  | .ok df => (if df.isEmpty then acc.1 else acc.1 ++ [df], acc.2)
  | .error e => (acc.1, acc.2 ++ ["[WARN] Failed to parse " ++ p.1 ++ ": " ++ e])

/-- Lines 195-203 of `sarif_to_pdf.py`: the per-document loop of `main`.
Each input is a discovered path together with the outcome of reading and
parsing it (`Except.error` = an exception caught by the `except` clause).
Returns the accumulated non-empty data frames `dfs` and the printed
`[WARN]` lines, in order. -/
def main_loop (inputs : List (String × Except String (List Finding))) :
    List (List Finding) × List String :=
  inputs.foldl mainStep ([], [])

/-- Spec-side observer: the single warning line a failed input document
contributes, `none` for a successful one. -/
def warnOf (p : String × Except String (List Finding)) : Option String :=
  match p.2 with
  | .error e => some ("[WARN] Failed to parse " ++ p.1 ++ ": " ++ e)
  | .ok _ => Option.none

/-- Spec-side observer: the data frame a successfully parsed, non-empty
input document contributes. -/
def okDfs (p : String × Except String (List Finding)) : Option (List Finding) :=
  match p.2 with
  | .ok df => if df.isEmpty then Option.none else some df
  | .error _ => Option.none

/-- Line 204: `pd.concat(dfs)` — the unified Dataset of the run. -/
def dfAllOf (inputs : List (String × Except String (List Finding))) : List Finding :=
  (main_loop inputs).1.flatten

/-- Spec-side severity extraction following the claim's words for C2: try
`severity`, then `security-severity`, then `cvss`, in that order, and
take the value of the first key that is *present*; the empty-string
default only when all three are absent. -/
def specSevFirstPresent (props : List (String × PyVal)) : PyVal :=
  match List.lookup "severity" props with
  | some v => v
  | Option.none =>
    match List.lookup "security-severity" props with
    | some v => v
    | Option.none =>
      match List.lookup "cvss" props with
      | some v => v
      | Option.none => .str ""

/-- The behaviour the code actually implements: the first *truthy* value
among the three candidate keys in order (a present but falsy value —
empty string, null, 0, false, empty container — is skipped exactly like
an absent key), else the empty string. -/
def firstTruthySev (props : List (String × PyVal)) : PyVal :=
  ((["severity", "security-severity", "cvss"].filterMap
      (fun k => List.lookup k props)).find? truthy).getD (.str "")

/-- A properties map in which `severity` is present (with an empty-string
value) and `security-severity` is present with value `"8.8"`. -/
def props0 : List (String × PyVal) := [("severity", .str ""), ("security-severity", .str "8.8")]

/-- A document whose single result entry carries `props0`. -/
def doc2 : PyVal :=
  .dict [("runs", .list [.dict [("results", .list [.dict [("properties", .dict props0)]])]])]

/-- The end-to-end example document of spec section 8: one result with
`ruleId="SQL01"`, `level="error"`, no severity property and message
`"SQL injection\nfound"`. -/
def docMsg : PyVal :=
  .dict [("runs", .list [.dict [("results", .list [.dict
    [("ruleId", .str "SQL01"), ("level", .str "error"),
     ("message", .dict [("text", .str "SQL injection\nfound")])]])]])]

/-- The finding `parse_sarif` extracts from `docMsg`. -/
def msgF : Finding :=
  { source_sarif := "A.sarif", tool := .str "A.sarif", ruleId := .str "SQL01",
    level := .str "error", severity := "", message := "SQL injection found",
    file := .str "", line := .str "", col := .str "", endLine := .str "" }

/-- A document that is a well-formed map/array tree but whose single
result entry has a non-string `message.text` (the integer 5). -/
def doc1 : PyVal :=
  .dict [("runs", .list [.dict [("results", .list [.dict
    [("message", .dict [("text", .int 5)])]])]])]

/-- A well-typed sample document: one run whose single result entry is an
empty map (every field absent). -/
def sampleDoc : PyVal :=
  .dict [("runs", .list [.dict [("results", .list [.dict []])]])]

/-- A 121-character message, long enough to trigger truncation. -/
def longMsg : String := String.mk (List.replicate 121 'a')

/-- A data-frame row carrying only an overlong `message` cell. -/
def row0 : List (String × PyVal) := [("message", .str longMsg)]

/-- A concrete one-row finding used in report-level examples. -/
def f0 : Finding :=
  { source_sarif := "a.sarif", tool := .str "tool", ruleId := .str "R1",
    level := .str "error", severity := "", message := "msg",
    file := .str "f.py", line := .int 3, col := .str "", endLine := .str "" }

/-- The truncation-disclosure paragraph of line 182. -/
def noteFlow : Flowable :=
  .para "Note: table is truncated to the first 60 rows for readability." "Italic"

/-- A two-document run: the first parses to one finding, the second
raises while being read or parsed. -/
def inputs0 : List (String × Except String (List Finding)) :=
  [("a.sarif", .ok [f0]), ("b.sarif", .error "boom")]

/-! Definitions end here; everything below is a lemma or a claim theorem. -/

/-- Python `a or b` returns `a` when `a` is truthy. -/
theorem pyOrV_pos (a b : PyVal) (h : truthy a = true) : pyOrV a b = a := by
  unfold pyOrV
  rw [h]
  rfl

/-- Python `a or b` returns `b` when `a` is falsy. -/
theorem pyOrV_neg (a b : PyVal) (h : truthy a = false) : pyOrV a b = b := by
  unfold pyOrV
  rw [h]
  rfl

/-- Python `None` is falsy. -/
theorem truthy_pynone : truthy .none = false := rfl

/-- Claim C9: the safe path lookup `_get` descends the object key by key
and returns the value at the end of the path when every step is a map
containing the next key, and returns the default the moment any step
fails; equivalently it refines the spec-side `lookupPath` with the default
filled in for a failed descent. -/
theorem c9_safe_path_lookup (obj : PyVal) (path : List String) (default : PyVal) :
    _get obj path default = (lookupPath obj path).getD default := by
  induction path generalizing obj with
  | nil => rfl
  | cons k ks ih =>
    cases obj with
    | dict kvs =>
      simp only [_get, lookupPath]
      cases List.lookup k kvs with
      | none => rfl
      | some v => simpa using ih v
    | none => rfl
    | bool b => rfl
    | int n => rfl
    | str s => rfl
    | list xs => rfl

/-- Claim C2 as stated is false: on a result entry whose properties map
has `severity` present with value `""` and `security-severity` present
with value `"8.8"`, the first-present-key policy of the claim yields the
string form of `""`, but the extractor stores `"8.8"` — the present
`severity` key is skipped because its value is falsy. -/
theorem c2_counterexample :
    (parse_sarif doc2 "a.sarif").map (List.map Finding.severity) = Except.ok ["8.8"]
    ∧ pyStr (specSevFirstPresent props0) = "" := by
  exact ⟨rfl, rfl⟩

/-- Claim C2 amended: the severity stored on the Finding is the first
*truthy* value among the keys `severity`, `security-severity`, `cvss`
tried in that order (a present but falsy value is skipped as if the key
were absent), coerced to its string form; the empty-string default is
used when no candidate value is truthy. -/
theorem c2_severity_first_truthy (props : List (String × PyVal)) :
    extractSev props = firstTruthySev props := by
  unfold extractSev firstTruthySev dGet
  cases h1 : List.lookup "severity" props <;>
    cases h2 : List.lookup "security-severity" props <;>
      cases h3 : List.lookup "cvss" props <;>
        [skip; (rename_i v3; cases t3 : truthy v3);
         (rename_i v2; cases t2 : truthy v2);
         (rename_i v2 v3; cases t2 : truthy v2 <;> cases t3 : truthy v3);
         (rename_i v1; cases t1 : truthy v1);
         (rename_i v1 v3; cases t1 : truthy v1 <;> cases t3 : truthy v3);
         (rename_i v1 v2; cases t1 : truthy v1 <;> cases t2 : truthy v2);
         (rename_i v1 v2 v3;
          cases t1 : truthy v1 <;> cases t2 : truthy v2 <;> cases t3 : truthy v3)] <;>
        simp only [List.filterMap_cons, List.filterMap_nil, List.find?_cons, List.find?_nil,
            Option.getD_some, Option.getD_none, pyOrV_pos, pyOrV_neg, truthy_pynone, *]

/-- Claim C3: severity classification is total over Findings (whose raw
severity and raw level are strings, empty when absent) and follows the
first-match policy: a present raw severity other than the literal string
"None" is returned verbatim; otherwise the raw level is mapped
case-insensitively with error→HIGH, warning→MEDIUM, note→LOW; otherwise
UNKNOWN.  `raw_severity = "None"` falls through exactly like the empty
(absent) severity. -/
theorem c3_bucket_total (sev lv : String) :
    bucket sev (.str lv) = Except.ok (specBucket sev lv) := by
  have hor : pyOrV (.str lv) (.str "") = .str lv := by
    unfold pyOrV truthy
    by_cases h : lv.isEmpty
    · rw [String.isEmpty_iff] at h
      subst h
      rfl
    · simp [h]
  unfold bucket specBucket
  by_cases h : sev ≠ "" ∧ sev ≠ "None"
  · simp [h]
  · simp only [if_neg h, hor]

/-- Mapping newlines to spaces does not change whether a character is
stripping whitespace. -/
theorem isPySpace_nlToSpace (c : Char) : isPySpace (nlToSpace c) = isPySpace c := by
  unfold nlToSpace
  by_cases h : c = '\n'
  · subst h
    rfl
  · rw [if_neg h]

/-- Dropping whitespace with `dropWhile` commutes with the newline-to-space map. -/
theorem dropWhile_map_nlToSpace (l : List Char) :
    (l.map nlToSpace).dropWhile isPySpace = (l.dropWhile isPySpace).map nlToSpace := by
  induction l with
  | nil => rfl
  | cons c l ih =>
    simp only [List.map_cons, List.dropWhile_cons, isPySpace_nlToSpace]
    cases h : isPySpace c
    · simp [h]
    · simpa [h] using ih

/-- No newline survives the newline-to-space map. -/
theorem nl_not_mem_map (l : List Char) : ¬ '\n' ∈ l.map nlToSpace := by
  intro h
  rcases List.mem_map.mp h with ⟨c, _, he⟩
  unfold nlToSpace at he
  by_cases hcn : c = '\n'
  · rw [if_pos hcn] at he
    exact absurd he (by decide)
  · rw [if_neg hcn] at he
    exact hcn he

/-- Stripping only removes characters. -/
theorem strip_mem {c : Char} {l : List Char} (h : c ∈ pyStripData l) : c ∈ l := by
  unfold pyStripData at h
  rw [List.mem_reverse] at h
  have h2 := (List.dropWhile_sublist _).subset h
  rw [List.mem_reverse] at h2
  exact (List.dropWhile_sublist _).subset h2

/-- Stripping commutes with the newline-to-space map. -/
theorem pyStripData_map (l : List Char) :
    pyStripData (l.map nlToSpace) = (pyStripData l).map nlToSpace := by
  unfold pyStripData
  rw [dropWhile_map_nlToSpace, ← List.map_reverse, dropWhile_map_nlToSpace, ← List.map_reverse]

/-- Any finding produced by `parseResult` carries a normalized message. -/
theorem parseResult_ok_message {src : String} {tool r : PyVal} {f : Finding}
    (h : parseResult src tool r = Except.ok f) : ∃ m, f.message = normalizeMsg m := by
  simp only [parseResult] at h
  repeat' split at h
  all_goals first
    | (cases h; exact ⟨_, rfl⟩)
    | simp at h

/-- Successful `exceptMapM` results all come from some input element. -/
theorem exceptMapM_ok_mem {α β : Type} {f : α → Except String β} :
    ∀ {l : List α} {bs : List β}, exceptMapM f l = Except.ok bs →
      ∀ b ∈ bs, ∃ a ∈ l, f a = Except.ok b := by
  intro l
  induction l with
  | nil =>
    intro bs h b hb
    cases h
    simp at hb
  | cons a as ih =>
    intro bs h b hb
    unfold exceptMapM at h
    split at h
    · exact absurd h (by simp)
    · rename_i b' hfa
      split at h
      · exact absurd h (by simp)
      · rename_i bs' hrest
        cases h
        rcases List.mem_cons.mp hb with hb1 | hb2
        · subst hb1
          exact ⟨a, List.mem_cons_self a as, hfa⟩
        · rcases ih hrest b hb2 with ⟨a', ha', hfa'⟩
          exact ⟨a', List.mem_cons_of_mem a ha', hfa'⟩

/-- Any finding produced by `parseRun` carries a normalized message. -/
theorem parseRun_ok_message {src : String} {run : PyVal} {fs : List Finding}
    (h : parseRun src run = Except.ok fs) : ∀ f ∈ fs, ∃ m, f.message = normalizeMsg m := by
  intro f hf
  simp only [parseRun] at h
  split at h
  · split at h
    · exact absurd h (by simp)
    · rcases exceptMapM_ok_mem h f hf with ⟨r, _, hr⟩
      exact parseResult_ok_message hr
  · exact absurd h (by simp)

/-- Any finding produced by `parse_sarif` carries a normalized message. -/
theorem parse_sarif_ok_message {data : PyVal} {src : String} {fs : List Finding}
    (h : parse_sarif data src = Except.ok fs) : ∀ f ∈ fs, ∃ m, f.message = normalizeMsg m := by
  intro f hf
  simp only [parse_sarif] at h
  split at h
  · split at h
    · exact absurd h (by simp)
    · split at h
      · exact absurd h (by simp)
      · rename_i rss hrss
        cases h
        rcases List.mem_flatten.mp hf with ⟨fs', hfs', hf'⟩
        rcases exceptMapM_ok_mem hrss fs' hfs' with ⟨run, _, hrun⟩
        exact parseRun_ok_message hrun f hf'
  · exact absurd h (by simp)

/-- Claim C4: every extracted Finding's message contains no newline
character and equals the source message text trimmed of leading/trailing
whitespace with internal newlines replaced by spaces (the code's
replace-then-strip order coincides with the spec's trim-then-replace
reading). -/
theorem c4_message_no_newline :
    (∀ m : String, ¬ '\n' ∈ (normalizeMsg m).data ∧ normalizeMsg m = specNormalize m)
    ∧ ∀ data src fs, parse_sarif data src = Except.ok fs →
        ∀ f ∈ fs, ¬ '\n' ∈ f.message.data ∧ ∃ m, f.message = normalizeMsg m := by
  have hnn : ∀ m : String, ¬ '\n' ∈ (normalizeMsg m).data := by
    intro m h
    have h' : '\n' ∈ pyStripData (m.data.map nlToSpace) := h
    exact nl_not_mem_map _ (strip_mem h')
  refine ⟨fun m => ⟨hnn m, ?_⟩, ?_⟩
  · unfold normalizeMsg specNormalize pyStrip replaceNL
    exact congrArg String.mk (pyStripData_map m.data)
  · intro data src fs h f hf
    rcases parse_sarif_ok_message h f hf with ⟨m, hm⟩
    refine ⟨?_, ⟨m, hm⟩⟩
    rw [hm]
    exact hnn m

/-- Witness for C4's parse-level part at the spec's own end-to-end
example: the finding extracted from `docMsg` has the newline-free message
`"SQL injection found"`. -/
theorem c4_witness :
    parse_sarif docMsg "A.sarif" = Except.ok [msgF]
    ∧ (¬ '\n' ∈ msgF.message.data ∧ ∃ m, msgF.message = normalizeMsg m) :=
  ⟨rfl, c4_message_no_newline.2 docMsg "A.sarif" [msgF] rfl msgF (List.mem_singleton.mpr rfl)⟩

/-- The fold `exceptMapM` succeeds when `f` succeeds on every element. -/
theorem exceptMapM_isOk {α β : Type} {f : α → Except String β} :
    ∀ {l : List α}, (∀ a ∈ l, (f a).isOk = true) → (exceptMapM f l).isOk = true := by
  intro l
  induction l with
  | nil => intro _; rfl
  | cons a as ih =>
    intro h
    unfold exceptMapM
    have ha := h a (List.mem_cons_self a as)
    have hrest := ih (fun x hx => h x (List.mem_cons_of_mem a hx))
    cases hfa : f a with
    | error e =>
      rw [hfa] at ha
      exact Bool.noConfusion ha
    | ok b =>
      cases hr : exceptMapM f as with
      | error e =>
        rw [hr] at hrest
        exact Bool.noConfusion hrest
      | ok bs => rfl

/-- Extraction via `parseResult` succeeds on every well-typed result entry. -/
theorem parseResult_isOk {src : String} {tool r : PyVal} (hok : resultOk r = true) :
    (parseResult src tool r).isOk = true := by
  cases r with
  | dict rd =>
    rw [resultOk] at hok
    obtain ⟨⟨h1, h2⟩, h3⟩ := by simpa [Bool.and_eq_true] using hok
    simp only [parseResult]
    split at h2
    · rename_i l0d tail heq
      rw [heq]
      simp only [pyIndex0]
      split at h2
      · rename_i plocD heq2
        rw [heq2]
        cases hreg : pyOrV (dGet plocD "region") (.dict []) <;> rw [hreg] at h2 <;>
          try simp [isDict] at h2
        rename_i regD
        cases hprops : pyOrV (dGet rd "properties") (.dict []) <;> rw [hprops] at h3 <;>
          try simp [isDict] at h3
        rename_i propsD
        cases hmsg : _get (.dict rd) ["message", "text"] (.str "") <;> rw [hmsg] at h1 <;>
          try simp [isStr] at h1
        rfl
      · simp at h2
    · simp at h2
  | none => simp [resultOk] at hok
  | bool b => simp [resultOk] at hok
  | int n => simp [resultOk] at hok
  | str s => simp [resultOk] at hok
  | list xs => simp [resultOk] at hok

/-- Extraction via `parseRun` succeeds on every well-typed run. -/
theorem parseRun_isOk {src : String} {run : PyVal} (hok : runOk run = true) :
    (parseRun src run).isOk = true := by
  cases run with
  | dict rund =>
    rw [runOk] at hok
    simp only [parseRun]
    split at hok
    · rename_i rs heq
      rw [heq]
      simp only [pyToList]
      exact exceptMapM_isOk (fun r hr => parseResult_isOk (List.all_eq_true.mp hok r hr))
    · simp at hok
  | none => simp [runOk] at hok
  | bool b => simp [runOk] at hok
  | int n => simp [runOk] at hok
  | str s => simp [runOk] at hok
  | list xs => simp [runOk] at hok

/-- Claim C1 as stated is false: `doc1` is a parsed map/array tree (its
single result carries `message.text = 5`), yet extraction raises — the
code calls `.replace` on the non-string message.  The extractor is not
raise-free over arbitrary parsed values; only *absent* paths are safe. -/
theorem c1_counterexample : (parse_sarif doc1 "a.sarif").isOk = false := rfl

/-- Claim C1 amended: extraction never raises for documents whose
*present* fields are well-typed where the code operates on them (docOk:
the document a map, runs a list of maps, results lists of maps,
message.text a string when it resolves, locations when truthy a list
headed by a map, physicalLocation/region/properties maps after
defaulting); in particular absence of `runs` or of any nested field never
raises, each missing path resolving to its declared default (second and
third conjuncts: a map without `runs` yields no findings; a result entry
that is an empty map yields the all-defaults finding). -/
theorem c1_extract_total :
    (∀ data src, docOk data = true → (parse_sarif data src).isOk = true)
    ∧ (∀ kvs src, List.lookup "runs" kvs = Option.none →
        parse_sarif (PyVal.dict kvs) src = Except.ok [])
    ∧ (∀ src, (parse_sarif sampleDoc src).map (List.map Finding.flat)
        = Except.ok [[src, src, "", "", "", "", "", "", "", ""]]) := by
  refine ⟨?_, ?_, ?_⟩
  · intro data src hok
    cases data with
    | dict dd =>
      rw [docOk] at hok
      simp only [parse_sarif]
      split at hok
      · rename_i rs heq
        rw [heq]
        simp only [pyToList]
        have hmm : (exceptMapM (parseRun src) rs).isOk = true :=
          exceptMapM_isOk (fun run hr => parseRun_isOk (List.all_eq_true.mp hok run hr))
        cases hm : exceptMapM (parseRun src) rs with
        | error e =>
          rw [hm] at hmm
          exact Bool.noConfusion hmm
        | ok rss => rfl
      · simp at hok
    | none => simp [docOk] at hok
    | bool b => simp [docOk] at hok
    | int n => simp [docOk] at hok
    | str s => simp [docOk] at hok
    | list xs => simp [docOk] at hok
  · intro kvs src hnone
    simp only [parse_sarif, pyOrV, dGet, hnone]
    rfl
  · intro src
    rfl

/-- Witness for C1's amended theorem: `sampleDoc` is well-typed, parsing
it does not raise, and a map without `runs` yields the empty finding
sequence. -/
theorem c1_witness :
    docOk sampleDoc = true ∧ (parse_sarif sampleDoc "a.sarif").isOk = true
    ∧ parse_sarif (PyVal.dict []) "b.sarif" = Except.ok [] :=
  ⟨rfl, c1_extract_total.1 sampleDoc "a.sarif" rfl,
   c1_extract_total.2.1 [] "b.sarif" rfl⟩

/-- The `String.mk` length is the list length. -/
theorem strLength_mk (l : List Char) : (String.mk l).length = l.length := rfl

/-- A truncated message never exceeds 120 characters. -/
theorem truncMsg_length (m : String) : (truncMsg m).length ≤ 120 := by
  unfold truncMsg
  split
  · rename_i h
    have ht : (strTake m 117).length = min 117 m.length := by
      unfold strTake
      rw [strLength_mk, List.length_take]
      rfl
    have h3 : ("..." : String).length = 3 := rfl
    rw [String.length_append, ht, h3]
    omega
  · omega

/-- A truncated file path never exceeds 45 characters. -/
theorem truncFile_length (g : String) : (truncFile g).length ≤ 45 := by
  unfold truncFile
  split
  · rename_i h
    have ht : (strTakeRight g 42).length = g.length - (g.length - 42) := by
      unfold strTakeRight
      rw [strLength_mk, List.length_drop]
      rfl
    have h3 : ("..." : String).length = 3 := rfl
    rw [String.length_append, ht, h3]
    omega
  · omega

/-- Claim C5: table formatting is length-bounded — at most the requested
number of data rows, message cells at most 120 characters (overlong
messages cut to 117 plus the `"..."` marker), file cells at most 45
characters (overlong paths reduced to `"..."` plus their final 42
characters), and missing columns filled with the empty string. -/
theorem c5_table_truncation (rows : List (List (String × PyVal))) (N : Nat) :
    (df_to_table_data rows N).tail.length ≤ N
    ∧ (∀ r ∈ (df_to_table_data rows N).tail, ∀ m, r.get? 6 = some m → m.length ≤ 120)
    ∧ (∀ r ∈ (df_to_table_data rows N).tail, ∀ g, r.get? 4 = some g → g.length ≤ 45)
    ∧ (∀ row, 120 < (cellStr row "message").length →
        truncMsg (cellStr row "message") = strTake (cellStr row "message") 117 ++ "...")
    ∧ (∀ row, 45 < (cellStr row "file").length →
        truncFile (cellStr row "file") = "..." ++ strTakeRight (cellStr row "file") 42)
    ∧ (∀ row c, List.lookup c row = Option.none → cellStr row c = "") := by
  refine ⟨?_, ?_, ?_, ?_, ?_, ?_⟩
  · simp only [df_to_table_data, List.tail_cons, List.length_map]
    exact (List.length_take_le N rows)
  · intro r hr m hm
    simp only [df_to_table_data, List.tail_cons] at hr
    rcases List.mem_map.mp hr with ⟨row, _, hrow⟩
    subst hrow
    simp only [mkTableRow, List.get?] at hm
    cases hm
    exact truncMsg_length _
  · intro r hr g hg
    simp only [df_to_table_data, List.tail_cons] at hr
    rcases List.mem_map.mp hr with ⟨row, _, hrow⟩
    subst hrow
    simp only [mkTableRow, List.get?] at hg
    cases hg
    exact truncFile_length _
  · intro row h
    unfold truncMsg
    rw [if_pos h]
  · intro row h
    unfold truncFile
    rw [if_pos h]
  · intro row c h
    unfold cellStr
    rw [h]
    rfl

/-- Witness for C5: on a concrete row whose message has 121 characters,
the formatted message cell is the truncated cell and is at most 120
characters long. -/
theorem c5_witness :
    mkTableRow row0 ∈ (df_to_table_data [row0] 5).tail
    ∧ (mkTableRow row0).get? 6 = some (truncMsg (cellStr row0 "message"))
    ∧ (truncMsg (cellStr row0 "message")).length ≤ 120 :=
  ⟨List.mem_cons_self (mkTableRow row0) [], rfl,
   (c5_table_truncation [row0] 5).2.1 (mkTableRow row0)
     (List.mem_cons_self (mkTableRow row0) []) _ rfl⟩

/-- Claim C10: the formatted grid starts with the fixed header row
`[tool, ruleId, level, severity, file, line, message]`, every row has
exactly 7 entries, and the grid's total length is at most `N + 1`. -/
theorem c10_table_shape (rows : List (List (String × PyVal))) (N : Nat) :
    (df_to_table_data rows N).head? = some tableCols
    ∧ (∀ r ∈ df_to_table_data rows N, r.length = 7)
    ∧ (df_to_table_data rows N).length ≤ N + 1 := by
  refine ⟨rfl, ?_, ?_⟩
  · intro r hr
    simp only [df_to_table_data] at hr
    rcases List.mem_cons.mp hr with h | h
    · subst h
      rfl
    · rcases List.mem_map.mp h with ⟨row, _, hrow⟩
      subst hrow
      rfl
  · simp only [df_to_table_data, List.length_cons, List.length_map]
    have := List.length_take_le N rows
    omega

/-- Witness for C10: the header row of a concrete empty table is in the
grid and has exactly 7 entries. -/
theorem c10_witness :
    tableCols ∈ df_to_table_data [] 0 ∧ tableCols.length = 7 :=
  ⟨List.mem_cons_self tableCols [],
   (c10_table_shape [] 0).2.1 tableCols (List.mem_cons_self tableCols [])⟩

/-- The formatter `df_to_table_data` emits at most the header plus `N` rows. -/
theorem df_to_table_data_length_le (rows : List (List (String × PyVal))) (N : Nat) :
    (df_to_table_data rows N).length ≤ N + 1 := by
  simp only [df_to_table_data, List.length_cons, List.length_map]
  have := List.length_take_le N rows
  omega

/-- Each per-document section contains exactly one Italic paragraph: the
truncation note. -/
theorem countP_sectionFlow (d : List Finding) (k : String) :
    (sectionFlow d k).countP isItalicPara = 1 := by
  simp [sectionFlow, isItalicPara, List.countP_cons, List.countP_nil]

/-- The sections of the report contribute one truncation note each. -/
theorem countP_flatMap_sections (d : List Finding) (ks : List String) :
    ((ks.flatMap (sectionFlow d)).countP isItalicPara) = ks.length := by
  induction ks with
  | nil => rfl
  | cons k ks ih =>
    rw [List.flatMap_cons, List.countP_append, countP_sectionFlow, ih, List.length_cons]
    omega

/-- The chart block of the report contains no Italic paragraph. -/
theorem countP_chartFlow (cs : List String) :
    ((cs.flatMap (fun ch => [Flowable.image ch 520 280, Flowable.spacer 1 10])).countP
      isItalicPara) = 0 := by
  induction cs with
  | nil => rfl
  | cons c cs ih =>
    rw [List.flatMap_cons, List.countP_append, ih]
    rfl

/-- Claim C6 as stated is false: the truncation note does not appear only
"when truncation occurred" — on a document with a single finding (no
truncation: 1 ≤ 60) the section still carries the note. -/
theorem c6_counterexample :
    noteFlow ∈ build_pdf [f0] (fun _ => true) [] "T"
    ∧ (df_to_table_data [f0.toRow] 60).tail.length = 1 := by
  constructor
  · decide
  · rfl

/-- Claim C6 amended: every per-source-document section carries the
truncation disclosure note *unconditionally* — the story contains exactly
one note per section, whether or not the document's finding count exceeds
60 — while rows beyond the 60-row maximum are silently dropped by the
formatter (every table in the story has at most 61 rows including its
header). -/
theorem c6_note_every_section (dfAll : List Finding) (existsF : String → Bool)
    (charts : List String) (now : String) :
    (build_pdf dfAll existsF charts now).countP isItalicPara = (sourceKeys dfAll).length
    ∧ ∀ d, Flowable.table d ∈ build_pdf dfAll existsF charts now → d.length ≤ 61 := by
  constructor
  · cases dfAll with
    | nil => rfl
    | cons f fs =>
      simp only [build_pdf, List.isEmpty_cons, Bool.false_eq_true, if_false,
        List.countP_append, countP_chartFlow, countP_flatMap_sections]
      simp [isItalicPara, List.countP_cons, List.countP_nil]
  · intro d hd
    cases dfAll with
    | nil => simp [build_pdf] at hd
    | cons f fs =>
      simp [build_pdf, sectionFlow] at hd
      rcases hd with ⟨k, _, hdta⟩
      subst hdta
      exact df_to_table_data_length_le _ 60

/-- Witness for C6's amended theorem: in the concrete one-finding report
the story holds that document's table, and the table respects the 61-row
bound. -/
theorem c6_witness :
    Flowable.table (df_to_table_data [f0.toRow] 60) ∈ build_pdf [f0] (fun _ => true) [] "T"
    ∧ (df_to_table_data [f0.toRow] 60).length ≤ 61 :=
  ⟨by decide,
   (c6_note_every_section [f0] (fun _ => true) [] "T").2 _ (by decide)⟩

/-- Claim C7: an empty Dataset is a valid non-error outcome — the chart
renderer returns zero images, and the assembled story is exactly the
title block followed by the "no findings" message, with no charts, no
tables and no per-document sections. -/
theorem c7_empty_dataset (outDir : String) (existsF : String → Bool)
    (charts : List String) (now : String) :
    make_charts [] outDir = Except.ok []
    ∧ build_pdf [] existsF charts now =
      [Flowable.para "Security Findings Report" "Title", Flowable.spacer 1 8,
       Flowable.para ("Generated: " ++ now ++ "Z") "Normal", Flowable.spacer 1 12,
       Flowable.para "No findings found in provided SARIF files." "Normal"] :=
  ⟨rfl, rfl⟩

/-- The main loop is a pure fold that partitions its inputs into data
frames of the successful documents and one warning per failed one. -/
theorem main_loop_foldl (inputs : List (String × Except String (List Finding))) :
    ∀ (dfs : List (List Finding)) (ws : List String),
      inputs.foldl mainStep (dfs, ws) =
        (dfs ++ inputs.filterMap okDfs, ws ++ inputs.filterMap warnOf) := by
  induction inputs with
  | nil =>
    intro dfs ws
    simp
  | cons p ps ih =>
    intro dfs ws
    rw [List.foldl_cons, List.filterMap_cons, List.filterMap_cons]
    cases hp : p.2 with
    | ok df =>
      cases hdf : df.isEmpty with
      | true =>
        have h1 : mainStep (dfs, ws) p = (dfs, ws) := by
          simp [mainStep, hp, hdf]
        have h2 : okDfs p = Option.none := by
          simp [okDfs, hp, hdf]
        have h3 : warnOf p = Option.none := by
          simp [warnOf, hp]
        rw [h1, h2, h3, ih]
      | false =>
        have h1 : mainStep (dfs, ws) p = (dfs ++ [df], ws) := by
          simp [mainStep, hp, hdf]
        have h2 : okDfs p = some df := by
          simp [okDfs, hp, hdf]
        have h3 : warnOf p = Option.none := by
          simp [warnOf, hp]
        rw [h1, h2, h3, ih]
        simp
    | error e =>
      have h1 : mainStep (dfs, ws) p =
          (dfs, ws ++ ["[WARN] Failed to parse " ++ p.1 ++ ": " ++ e]) := by
        simp [mainStep, hp]
      have h2 : okDfs p = Option.none := by
        simp [okDfs, hp]
      have h3 : warnOf p = some ("[WARN] Failed to parse " ++ p.1 ++ ": " ++ e) := by
        simp [warnOf, hp]
      rw [h1, h2, h3, ih]
      simp

/-- Claim C8: per-document parse failure is isolated — over any list of
input documents the loop emits exactly one warning per failed document
(and nothing else), the Dataset is the concatenation of the successful
documents' findings, every finding of a successful document still appears
in the Dataset, and the loop itself is a total function (it never aborts
the run). -/
theorem c8_per_document_isolation (inputs : List (String × Except String (List Finding))) :
    (main_loop inputs).2 = inputs.filterMap warnOf
    ∧ dfAllOf inputs = (inputs.filterMap okDfs).flatten
    ∧ (∀ src df, (src, Except.ok df) ∈ inputs → ∀ f ∈ df, f ∈ dfAllOf inputs)
    ∧ (∀ src e, (src, Except.error e) ∈ inputs →
        ("[WARN] Failed to parse " ++ src ++ ": " ++ e) ∈ (main_loop inputs).2) := by
  have hfold := main_loop_foldl inputs [] []
  have hml : main_loop inputs = (inputs.filterMap okDfs, inputs.filterMap warnOf) := by
    rw [main_loop, hfold]
    simp
  refine ⟨by rw [hml], by rw [dfAllOf, hml], ?_, ?_⟩
  · intro src df hmem f hf
    rw [dfAllOf, hml]
    have hdf : df.isEmpty = false := by
      cases df with
      | nil => simp at hf
      | cons x xs => rfl
    refine List.mem_flatten.mpr ⟨df, ?_, hf⟩
    exact List.mem_filterMap.mpr ⟨(src, Except.ok df), hmem, by simp [okDfs, hdf]⟩
  · intro src e hmem
    rw [hml]
    exact List.mem_filterMap.mpr ⟨(src, Except.error e), hmem, rfl⟩

/-- Witness for C8 on a concrete two-document run whose second document
fails: the first document's finding is in the Dataset and the failure
produced its warning line. -/
theorem c8_witness :
    f0 ∈ dfAllOf inputs0
    ∧ ("[WARN] Failed to parse b.sarif: boom") ∈ (main_loop inputs0).2 :=
  ⟨(c8_per_document_isolation inputs0).2.2.1 "a.sarif" [f0]
     (List.mem_cons_self _ _) f0 (List.mem_singleton.mpr rfl),
   (c8_per_document_isolation inputs0).2.2.2 "b.sarif" "boom"
     (List.mem_cons_of_mem _ (List.mem_singleton.mpr rfl))⟩
